import Mathlib

/-!
# Verification of the workreward task/reward core

Shallow embedding of the business-logic core of the `workreward` Django
backend: the efficiency calculator (`reports_api/utils.py`), the reward
calculator (`rewards_api/serializers.py`), the task lifecycle serializers
(`tasks_api/serializers.py`) and the report/reward issuance operations
(`reports_api/serializers.py`, `rewards_api/serializers.py`).

Timestamps and durations are modelled as rationals (seconds); Python float
and `Decimal` arithmetic are modelled exactly over `ℚ`, with `Decimal`
quantization embedded as round-half-to-even (the default rounding of
Python's `decimal` module).  Users are modelled by their id together with
the two flags the core reads (`is_manager`, `is_active`); ORM rows are
structures and the ORM tables are lists of rows.
-/

namespace Workreward

/-- A principal as the core sees it: the `users` model's id and the two
flags read by the permission checks. -/
structure User where
  id : Nat
  is_manager : Bool
  is_active : Bool
deriving DecidableEq, Repr

/-- The `Task` model (`tasks_api/models.py`).  `task_duration` is the
expected duration in seconds; `time_start` / `time_completion` are nullable
timestamps (seconds); `task_creator` / `task_performer` are nullable
foreign keys modelled by the referenced user's id. -/
structure Task where
  id : Nat
  title : String
  description : String
  difficulty : Int
  task_duration : ℚ
  time_create : ℚ
  time_completion : Option ℚ
  time_start : Option ℚ
  task_creator : Option Nat
  task_performer : Option Nat
deriving DecidableEq, Repr

/-- The `TaskReport` model (`reports_api/models.py`).  `task` is the
nullable one-to-one foreign key to the task, modelled by its id;
`is_awarded` defaults to `false` at creation. -/
structure TaskReport where
  id : Nat
  text : String
  efficiency_score : ℚ
  time_create : ℚ
  is_awarded : Bool
  task : Option Nat
deriving DecidableEq, Repr

/-- The `Reward` model (`rewards_api/models.py`).  `task_report` is the
nullable one-to-one foreign key to the report, modelled by its id. -/
structure Reward where
  reward_sum : ℚ
  comment : String
  time_create : ℚ
  task_report : Option Nat
deriving DecidableEq, Repr

/-- `calculate_performer_efficiency` (`reports_api/utils.py`), embedded on
the values the Python code reads off the task: the expected duration in
seconds, the two timestamps (so that `time_completion - time_start` is the
elapsed `total_seconds()`), and the difficulty.  Float arithmetic is
modelled exactly over `ℚ`.  The function is total: when the elapsed time is
not positive it returns `0` instead of dividing. -/
def calculate_performer_efficiency (task_duration time_start time_completion : ℚ)
    (difficulty : Int) : ℚ :=
  let time_taken_seconds := time_completion - time_start
  if time_taken_seconds ≤ 0 then 0
  else
    let task_duration_seconds := task_duration
    let STABILIZING_COEF : ℚ := 8 / 10
    let time_efficiency := (task_duration_seconds / time_taken_seconds) * STABILIZING_COEF
    let DIFF_LEVELS : ℚ := 5
    let difficulty_efficiency := (difficulty : ℚ) / DIFF_LEVELS
    time_efficiency * (1 + difficulty_efficiency)

/-- Round a rational to the nearest integer, ties to even: the rounding of
Python's `decimal` module in its default context (`ROUND_HALF_EVEN`). -/
def roundHalfEven (q : ℚ) : Int :=
  if q - (⌊q⌋ : ℚ) < 1 / 2 then ⌊q⌋
  else if 1 / 2 < q - (⌊q⌋ : ℚ) then ⌊q⌋ + 1
  else if ⌊q⌋ % 2 = 0 then ⌊q⌋ else ⌊q⌋ + 1

/-- `Decimal(...).quantize(Decimal(".01"))`: round to two decimal places,
half to even. -/
def quantize2 (q : ℚ) : ℚ :=
  (roundHalfEven (q * 100) : ℚ) / 100

/-- The amount computed in `RewardCreateSerializer.create`
(`rewards_api/serializers.py`): `BASE_RATE * Decimal(str(efficiency_score)).quantize(Decimal(".01"))`,
then capped at `THRESHOLD`.  Note the quantization binds to
`Decimal(str(efficiency_score))`, so the efficiency score itself is rounded
to two decimals before the multiplication by the base rate.  The argument
is the exact value of the decimal string `str(efficiency_score)`. -/
def reward_sum_of (efficiency_score : ℚ) : ℚ :=
  let BASE_RATE : ℚ := 500
  let THRESHOLD : ℚ := 10000
  let reward_sum := BASE_RATE * quantize2 efficiency_score
  if reward_sum > THRESHOLD then THRESHOLD else reward_sum

/-- Modelled from the spec's words, for comparison with `reward_sum_of`:
"`calculate_reward(e) == min(500.00 * e, 10000.00)` rounded to 2 decimals"
— the product is rounded, not the factor. -/
def calculate_reward_spec (e : ℚ) : ℚ :=
  quantize2 (min (500 * e) 10000)

/-- The error taxonomy of the spec (§7).  Each `ValidationError` raised by
the serializers is classified by the kind of rule it enforces:
wrong role/ownership is `permissionDenied`, an operation illegal in the
current lifecycle state is `invalidState`, an unusable referenced principal
is `invalidTarget`, and a uniqueness violation is `conflict`. -/
inductive ApiError where
  | permissionDenied
  | invalidState
  | invalidTarget
  | conflict
deriving DecidableEq, Repr

/-- `TaskTakeSerializer.validate` (`tasks_api/serializers.py`): a manager
may not take a task; a task that already has a performer may not be
taken.  The checks run in this order. -/
def take_validate (user : User) (task : Task) : Except ApiError Unit :=
  if user.is_manager then .error .permissionDenied
  else if task.task_performer.isSome then .error .invalidState
  else .ok ()

/-- `TaskTakeSerializer.update`: sets the current user as performer and
stamps `time_start` with the current time; nothing else changes. -/
def take_update (user : User) (now : ℚ) (task : Task) : Task :=
  { task with task_performer := some user.id, time_start := some now }

/-- `TaskAssignSerializer` validation (`tasks_api/serializers.py`).  The
framework resolves and validates the `task_performer` field first: the
field's queryset excludes managers and `validate_task_performer` rejects
inactive users (both are bad-target errors).  Then `validate` runs: the
actor must be a manager, must be the task's creator, and the task must not
already have a performer. -/
def assign_validate (user : User) (target : User) (task : Task) :
    Except ApiError Unit :=
  if target.is_manager then .error .invalidTarget
  else if !target.is_active then .error .invalidTarget
  else if !user.is_manager then .error .permissionDenied
  else if task.task_creator ≠ some user.id then .error .permissionDenied
  else if task.task_performer.isSome then .error .invalidState
  else .ok ()

/-- `TaskAssignSerializer.update`: sets the validated performer and stamps
`time_start`; nothing else changes. -/
def assign_update (target : User) (now : ℚ) (task : Task) : Task :=
  { task with task_performer := some target.id, time_start := some now }

/-- `TaskCompleteSerializer.validate`: a manager may not complete a task;
the actor must be the task's performer; an already-completed task may not
be completed again. -/
def complete_validate (user : User) (task : Task) : Except ApiError Unit :=
  if user.is_manager then .error .permissionDenied
  else if task.task_performer ≠ some user.id then .error .permissionDenied
  else if task.time_completion.isSome then .error .invalidState
  else .ok ()

/-- `TaskCompleteSerializer.update`: stamps `time_completion`; nothing else
changes. -/
def complete_update (now : ℚ) (task : Task) : Task :=
  { task with time_completion := some now }

/-- `TaskReportCreateSerializer` (`reports_api/serializers.py`), `validate`
followed by `create`.  `reports` is the table of existing reports, `now`
the current time, `new_id` the id the store assigns the new row.  The
checks run in source order: author must not be a manager, must be the
task's performer, the task must be completed, and no report may already
exist for the task.  On success exactly one report is appended, with
`efficiency_score` computed by `calculate_performer_efficiency` from the
task's stored timestamps and `is_awarded` left at its `false` default.
(The `getD 0` defaults never matter on the inputs the theorems use: the
success branch is only reached with `time_completion` set, and the
lifecycle stamps `time_start` whenever a performer is set.)  The helper
`new_report` is the row `TaskReport.objects.create(...)` inserts. -/
def new_report (task : Task) (text : String) (now : ℚ) (new_id : Nat) :
    TaskReport :=
  { id := new_id
    text := text
    efficiency_score := calculate_performer_efficiency task.task_duration
      (task.time_start.getD 0) (task.time_completion.getD 0) task.difficulty
    time_create := now
    is_awarded := false
    task := some task.id }

def create_report (user : User) (task : Task) (text : String)
    (reports : List TaskReport) (now : ℚ) (new_id : Nat) :
    Except ApiError (TaskReport × List TaskReport) :=
  if user.is_manager then .error .permissionDenied
  else if task.task_performer ≠ some user.id then .error .permissionDenied
  else if task.time_completion = none then .error .invalidState
  else if reports.any fun r => r.task = some task.id then .error .conflict
  else .ok (new_report task text now new_id,
    reports ++ [new_report task text now new_id])

/-- The slice of the store the reward operation touches. -/
structure Store where
  reports : List TaskReport
  rewards : List Reward
deriving DecidableEq, Repr

/-- `RewardCreateSerializer.create` (`rewards_api/serializers.py`).  The
method issues two separate ORM writes with no enclosing transaction:
`Reward.objects.create(...)` first, then
`report.save(update_fields=["is_awarded"])`.  Under the framework's
default autocommit each write commits on its own, so the model takes a
flag `report_save_ok` saying whether the second write succeeds; the first
write has already committed either way. -/
def create_reward (report : TaskReport) (comment : String) (now : ℚ)
    (st : Store) (report_save_ok : Bool) : Store :=
  let reward : Reward :=
    { reward_sum := reward_sum_of report.efficiency_score
      comment := comment
      time_create := now
      task_report := some report.id }
  let st1 : Store := { st with rewards := st.rewards ++ [reward] }
  if report_save_ok then
    { st1 with reports := st1.reports.map fun r =>
        if r.id = report.id then { r with is_awarded := true } else r }
  else st1

/-- Sample manager principal, mirroring the repository's test fixtures. -/
def manager0 : User :=
  { id := 1, is_manager := true, is_active := true }

/-- Sample performer principal. -/
def performer0 : User :=
  { id := 2, is_manager := false, is_active := true }

/-- A completed sample task: difficulty 3, expected duration 2 h (7200 s),
started at `t = 100` and completed at `t = 6100`, i.e. after exactly
6000 s; created by `manager0`, performed by `performer0`. -/
def task0 : Task :=
  { id := 11, title := "Task", description := "demo", difficulty := 3
    task_duration := 7200, time_create := 0
    time_completion := some 6100, time_start := some 100
    task_creator := some 1, task_performer := some 2 }

/-- The report `create_report` produces for `task0`: efficiency
`(7200/6000) * 0.8 * (1 + 3/5) = 1.536`. -/
def report0 : TaskReport :=
  { id := 7, text := "done", efficiency_score := 1536 / 1000
    time_create := 150, is_awarded := false, task := some 11 }

/-- A report whose stored efficiency score is `0` (the score the calculator
returns for a non-positive elapsed time). -/
def reportZero : TaskReport :=
  { id := 8, text := "late", efficiency_score := 0
    time_create := 150, is_awarded := false, task := some 12 }

/-- Unfolding of the efficiency calculator on a positive elapsed time. -/
lemma calculate_performer_efficiency_of_pos (dur s c : ℚ) (d : Int)
    (h : s < c) :
    calculate_performer_efficiency dur s c d =
      (dur / (c - s)) * (8 / 10) * (1 + (d : ℚ) / 5) := by
  unfold calculate_performer_efficiency
  rw [if_neg (by linarith)]

/-- `roundHalfEven` never goes below the floor, hence is nonnegative on
nonnegative inputs. -/
lemma roundHalfEven_nonneg {q : ℚ} (h : 0 ≤ q) : 0 ≤ roundHalfEven q := by
  have hf : (0 : ℤ) ≤ ⌊q⌋ := Int.floor_nonneg.mpr h
  unfold roundHalfEven
  split_ifs <;> omega

/-- Evaluation of `create_report` on the sample completed task: the
validation passes and the appended report is `report0`. -/
lemma create_report_task0_eval :
    create_report performer0 task0 "done" [] 150 7 =
      .ok (report0, [report0]) := by
  unfold create_report
  rw [if_neg (by simp [performer0]), if_neg (by simp [performer0, task0]),
    if_neg (by simp [task0]), if_neg (by simp)]
  norm_num [new_report, task0, report0, calculate_performer_efficiency]

/-- The capped reward amount, written with `min`. -/
lemma reward_sum_of_eq_min (e : ℚ) :
    reward_sum_of e = min (500 * quantize2 e) 10000 := by
  unfold reward_sum_of
  rcases le_or_lt (500 * quantize2 e) 10000 with h | h
  · rw [if_neg (by simpa using not_lt.mpr h), min_eq_left h]
  · rw [if_pos (by simpa using h), min_eq_right h.le]

/-- C1: the claim says the amount is `min(500.00 * e, 10000.00)` rounded to
2 decimals.  The code instead rounds `e` to 2 decimals and then multiplies:
at `e = 1.001` the code yields `500.00` while the claimed formula yields
`500.50`. -/
theorem C1_product_rounding_counterexample :
    reward_sum_of (1001 / 1000) = 500 ∧
    calculate_reward_spec (1001 / 1000) = 1001 / 2 ∧
    (500 : ℚ) ≠ 1001 / 2 := by
  refine ⟨?_, ?_, by norm_num⟩
  · norm_num [reward_sum_of, quantize2, roundHalfEven]
  · norm_num [calculate_reward_spec, quantize2, roundHalfEven]

/-- C1 (amended): for every efficiency score `e ≥ 0` the amount equals
`min(500.00 * (e rounded to 2 decimals, half to even), 10000.00)`; in
particular the amount for `e = 4.5` is `2250.00` and the amount for
`e = 25` is `10000.00` (capped). -/
theorem C1_reward_amount (e : ℚ) (_he : 0 ≤ e) :
    reward_sum_of e = min (500 * quantize2 e) 10000 ∧
    reward_sum_of (9 / 2) = 2250 ∧
    reward_sum_of 25 = 10000 := by
  refine ⟨reward_sum_of_eq_min e, ?_, ?_⟩
  · norm_num [reward_sum_of, quantize2, roundHalfEven]
  · norm_num [reward_sum_of, quantize2, roundHalfEven]

/-- Witness for C1 at `e = 4.5`. -/
theorem C1_reward_amount_witness :
    reward_sum_of (9 / 2) = min (500 * quantize2 (9 / 2)) 10000 ∧
    reward_sum_of (9 / 2) = 2250 ∧ reward_sum_of 25 = 10000 :=
  C1_reward_amount (9 / 2) (by norm_num)

/-- C2: the efficiency for a difficulty-3 task expected to take 7200 s and
actually taking 6000 s is exactly `1.536` — but the reward issued from it
is `770.00`, not the claimed `768.00`: the code rounds the score to `1.54`
before multiplying by the base rate. -/
theorem C2_reward_768_counterexample :
    calculate_performer_efficiency 7200 100 6100 3 = 1536 / 1000 ∧
    reward_sum_of (1536 / 1000) = 770 ∧
    (770 : ℚ) ≠ 768 := by
  refine ⟨?_, ?_, by norm_num⟩
  · norm_num [calculate_performer_efficiency]
  · norm_num [reward_sum_of, quantize2, roundHalfEven]

/-- C2 (amended): end-to-end, the report created for `task0` (difficulty 3,
expected 7200 s, completed 6000 s after start) carries efficiency exactly
`1.536`, and the reward subsequently issued for that report has amount
exactly `770.00`. -/
theorem C2_end_to_end_scenario :
    create_report performer0 task0 "done" [] 150 7 =
      .ok (report0, [report0]) ∧
    report0.efficiency_score = 1536 / 1000 ∧
    (create_reward report0 "well done" 200 ⟨[report0], []⟩ true).rewards =
      [{ reward_sum := 770, comment := "well done", time_create := 200
         task_report := some 7 }] := by
  refine ⟨create_report_task0_eval, rfl, ?_⟩
  · simp only [create_reward, report0]
    norm_num [reward_sum_of, quantize2, roundHalfEven]

/-- C3: `RewardCreateSerializer.create` runs `Reward.objects.create` and
`report.save(update_fields=["is_awarded"])` as two separate writes with no
enclosing transaction.  Evaluated at the failing input — the
`is_awarded` write fails after the reward insert committed — the created
reward (amount 770.00) persists while the report's `is_awarded` is still
`false`, contradicting the both-or-neither claim. -/
theorem C3_reward_persists_when_flag_write_fails :
    (create_reward report0 "c" 200 ⟨[report0], []⟩ false).rewards =
      [{ reward_sum := 770, comment := "c", time_create := 200
         task_report := some 7 }] ∧
    ∀ r ∈ (create_reward report0 "c" 200 ⟨[report0], []⟩ false).reports,
      r.is_awarded = false := by
  constructor
  · simp only [create_reward, report0]
    norm_num [reward_sum_of, quantize2, roundHalfEven]
  · intro r hr
    simp only [create_reward, Bool.false_eq_true, if_false] at hr
    simp only [List.mem_singleton] at hr
    subst hr
    rfl

/-- C4: the claim says `take`/`assign` on a task with a performer already
set fails with `InvalidState` regardless of actor.  The actor checks run
first: a manager taking such a task gets `PermissionDenied`, not
`InvalidState`. -/
theorem C4_manager_take_counterexample :
    task0.task_performer.isSome = true ∧
    take_validate manager0 task0 = .error .permissionDenied ∧
    take_validate manager0 task0 ≠ .error .invalidState := by
  refine ⟨rfl, rfl, ?_⟩
  intro h
  rw [show take_validate manager0 task0 = .error .permissionDenied from rfl] at h
  simp at h

/-- C4 (amended): `take`/`assign` on a task whose performer is already set
never succeeds, for every actor; the error is `InvalidState` exactly when
the actor passes the preceding checks (take: actor not a manager; assign:
target active and not a manager, actor a manager and the task's creator);
otherwise the earlier `PermissionDenied`/`InvalidTarget` error is raised
first. -/
theorem C4_performer_already_set (user target : User) (task : Task)
    (h : task.task_performer.isSome) :
    take_validate user task ≠ .ok () ∧
    assign_validate user target task ≠ .ok () ∧
    (user.is_manager = false →
      take_validate user task = .error .invalidState) ∧
    (target.is_manager = false → target.is_active = true →
      user.is_manager = true → task.task_creator = some user.id →
      assign_validate user target task = .error .invalidState) := by
  refine ⟨?_, ?_, ?_, ?_⟩
  · unfold take_validate
    split_ifs <;> simp_all
  · unfold assign_validate
    split_ifs <;> simp_all
  · intro hm
    unfold take_validate
    rw [if_neg (by simp [hm]), if_pos h]
  · intro h1 h2 h3 h4
    unfold assign_validate
    rw [if_neg (by simp [h1]), if_neg (by simp [h2]), if_neg (by simp [h3]),
      if_neg (by simp [h4]), if_pos h]

/-- Witness for C4: both `invalidState` branches fire on `task0`. -/
theorem C4_performer_already_set_witness :
    take_validate performer0 task0 = .error .invalidState ∧
    assign_validate manager0 performer0 task0 = .error .invalidState :=
  ⟨(C4_performer_already_set performer0 performer0 task0 rfl).2.2.1 rfl,
   (C4_performer_already_set manager0 performer0 task0 rfl).2.2.2
     rfl rfl rfl rfl⟩

/-- A reward the reward operation persists for a report whose stored
efficiency score is `0`. -/
def rewardZero : Reward :=
  { reward_sum := 0, comment := "zero", time_create := 300
    task_report := some 8 }

/-- C5: the claim says no reward of amount `0.00` is ever created.  For a
report with efficiency score `0` (the calculator's defined value for a
non-positive elapsed time) the persisted reward has amount exactly `0`. -/
theorem C5_zero_amount_counterexample :
    (create_reward reportZero "zero" 300 ⟨[reportZero], []⟩ true).rewards =
      [rewardZero] ∧
    ¬ 0 < rewardZero.reward_sum := by
  constructor
  · simp only [create_reward, reportZero, rewardZero]
    norm_num [reward_sum_of, quantize2, roundHalfEven]
  · simp [rewardZero]

/-- C5 (amended): every reward the reward operation adds to the store has
an amount in `[0, 10000.00]` (the lower bound is not strict: a report whose
score rounds to `0.00` at two decimals yields an amount of exactly `0`),
provided the report's stored efficiency score is nonnegative. -/
theorem C5_amount_bounds (report : TaskReport) (comment : String) (now : ℚ)
    (st : Store) (save_ok : Bool) (h : 0 ≤ report.efficiency_score) :
    ∀ rwd ∈ (create_reward report comment now st save_ok).rewards,
      rwd ∈ st.rewards ∨ (0 ≤ rwd.reward_sum ∧ rwd.reward_sum ≤ 10000) := by
  have hq : 0 ≤ quantize2 report.efficiency_score := by
    unfold quantize2
    have hr := roundHalfEven_nonneg (q := report.efficiency_score * 100)
      (by positivity)
    have : (0 : ℚ) ≤ (roundHalfEven (report.efficiency_score * 100) : ℚ) := by
      exact_mod_cast hr
    linarith
  have hb : 0 ≤ reward_sum_of report.efficiency_score ∧
      reward_sum_of report.efficiency_score ≤ 10000 := by
    rw [reward_sum_of_eq_min]
    exact ⟨le_min (by linarith) (by norm_num), min_le_right _ _⟩
  intro rwd hrwd
  have hrew : (create_reward report comment now st save_ok).rewards =
      st.rewards ++ [Reward.mk (reward_sum_of report.efficiency_score)
        comment now (some report.id)] := by
    unfold create_reward
    cases save_ok <;> simp
  rw [hrew] at hrwd
  rcases List.mem_append.mp hrwd with hmem | hmem
  · exact Or.inl hmem
  · right
    rw [List.mem_singleton] at hmem
    subst hmem
    exact hb

/-- Witness for C5 at the zero-score report: the persisted reward is new
(the prior reward table is empty) and its amount lies in `[0, 10000]`. -/
theorem C5_amount_bounds_witness :
    rewardZero ∈ ([] : List Reward) ∨
      (0 ≤ rewardZero.reward_sum ∧ rewardZero.reward_sum ≤ 10000) :=
  C5_amount_bounds reportZero "zero" 300 ⟨[reportZero], []⟩ true
    (by simp [reportZero]) rewardZero
    (by simp only [create_reward, reportZero, rewardZero]
        norm_num [reward_sum_of, quantize2, roundHalfEven])

/-- C6: on the domain the claim names (difficulty in `[1,5]`, positive
expected duration, positive elapsed time), the efficiency computation is
strictly decreasing in the elapsed time and strictly increasing in the
difficulty.  The elapsed time is realised as `time_completion - time_start`
with `time_start = 0`. -/
theorem C6_efficiency_monotone (dur a b : ℚ) (d e : Int)
    (hd1 : 1 ≤ d) (_hd5 : d ≤ 5) (_he1 : 1 ≤ e) (_he5 : e ≤ 5)
    (hdur : 0 < dur) (ha : 0 < a) (hb : 0 < b) :
    (a < b → calculate_performer_efficiency dur 0 b d <
      calculate_performer_efficiency dur 0 a d) ∧
    (d < e → calculate_performer_efficiency dur 0 a d <
      calculate_performer_efficiency dur 0 a e) := by
  have unf : ∀ (x : ℚ) (k : Int), 0 < x →
      calculate_performer_efficiency dur 0 x k =
        (dur / x) * (8 / 10) * (1 + (k : ℚ) / 5) := by
    intro x k hx
    rw [calculate_performer_efficiency_of_pos dur 0 x k hx, sub_zero]
  constructor
  · intro hab
    rw [unf a d ha, unf b d hb]
    have h1 : dur / b < dur / a := div_lt_div_of_pos_left hdur ha hab
    have h2 : (0 : ℚ) < 1 + (d : ℚ) / 5 := by
      have : (1 : ℚ) ≤ (d : ℚ) := by exact_mod_cast hd1
      linarith
    exact mul_lt_mul_of_pos_right
      (mul_lt_mul_of_pos_right h1 (by norm_num)) h2
  · intro hde
    rw [unf a d ha, unf a e ha]
    have h3 : (0 : ℚ) < dur / a * (8 / 10) := by positivity
    have h4 : 1 + (d : ℚ) / 5 < 1 + (e : ℚ) / 5 := by
      have : (d : ℚ) < (e : ℚ) := by exact_mod_cast hde
      linarith
    exact mul_lt_mul_of_pos_left h4 h3

/-- Witness for C6: slower completion (7200 s vs 6000 s) scores lower;
higher difficulty (4 vs 3) scores higher. -/
theorem C6_efficiency_monotone_witness :
    calculate_performer_efficiency 7200 0 7200 3 <
      calculate_performer_efficiency 7200 0 6000 3 ∧
    calculate_performer_efficiency 7200 0 6000 3 <
      calculate_performer_efficiency 7200 0 6000 4 :=
  ⟨(C6_efficiency_monotone 7200 6000 7200 3 4 (by norm_num) (by norm_num)
      (by norm_num) (by norm_num) (by norm_num) (by norm_num)
      (by norm_num)).1 (by norm_num),
   (C6_efficiency_monotone 7200 6000 7200 3 4 (by norm_num) (by norm_num)
      (by norm_num) (by norm_num) (by norm_num) (by norm_num)
      (by norm_num)).2 (by norm_num)⟩

/-- C7: whenever the elapsed time `time_completion - time_start` is not
positive, the efficiency computation returns `0`, for any expected duration
and any difficulty.  (The embedded function is total, mirroring the guard
in the source that returns before the division.) -/
theorem C7_nonpositive_elapsed_zero (dur s c : ℚ) (d : Int)
    (h : c - s ≤ 0) : calculate_performer_efficiency dur s c d = 0 := by
  unfold calculate_performer_efficiency
  rw [if_pos h]

/-- Witness for C7: equal start and completion timestamps score `0`. -/
theorem C7_nonpositive_elapsed_zero_witness :
    calculate_performer_efficiency 7200 100 100 3 = 0 :=
  C7_nonpositive_elapsed_zero 7200 100 100 3 (by norm_num)

/-- C8: the contract of `create_report`.  The author being a manager or
not being the task's performer gives `PermissionDenied`; a permitted
author on a task with no completion timestamp gives `InvalidState`; a
permitted author on a completed task that already has a report gives
`Conflict`; otherwise the call succeeds, appending exactly one report
whose `efficiency_score` is computed from the task's stored timestamps and
whose `is_awarded` is `false`. -/
theorem C8_create_report_contract (user : User) (task : Task)
    (text : String) (reports : List TaskReport) (now : ℚ) (new_id : Nat) :
    (user.is_manager = true ∨ task.task_performer ≠ some user.id →
      create_report user task text reports now new_id =
        .error .permissionDenied) ∧
    (user.is_manager = false → task.task_performer = some user.id →
      task.time_completion = none →
      create_report user task text reports now new_id =
        .error .invalidState) ∧
    (user.is_manager = false → task.task_performer = some user.id →
      task.time_completion ≠ none →
      (reports.any fun r => r.task = some task.id) = true →
      create_report user task text reports now new_id =
        .error .conflict) ∧
    (user.is_manager = false → task.task_performer = some user.id →
      task.time_completion ≠ none →
      (reports.any fun r => r.task = some task.id) = false →
      ∃ rep, create_report user task text reports now new_id =
        .ok (rep, reports ++ [rep])) ∧
    (∀ s c rep rest, task.time_start = some s →
      task.time_completion = some c →
      create_report user task text reports now new_id = .ok (rep, rest) →
      rest = reports ++ [rep] ∧
      rep.efficiency_score =
        calculate_performer_efficiency task.task_duration s c
          task.difficulty ∧
      rep.is_awarded = false ∧ rep.text = text ∧
      rep.task = some task.id ∧ rep.time_create = now) := by
  refine ⟨?_, ?_, ?_, ?_, ?_⟩
  · intro h
    unfold create_report
    rcases h with h | h
    · rw [if_pos h]
    · by_cases hm : user.is_manager = true
      · rw [if_pos hm]
      · rw [if_neg hm, if_pos h]
  · intro hm hp hc
    unfold create_report
    rw [if_neg (by simp [hm]), if_neg (by simp [hp]), if_pos hc]
  · intro hm hp hc hex
    unfold create_report
    rw [if_neg (by simp [hm]), if_neg (by simp [hp]), if_neg hc, if_pos hex]
  · intro hm hp hc hex
    unfold create_report
    rw [if_neg (by simp [hm]), if_neg (by simp [hp]), if_neg hc,
      if_neg (by simp [hex])]
    exact ⟨_, rfl⟩
  · intro s c rep rest hs hc heq
    unfold create_report at heq
    split_ifs at heq
    rw [Except.ok.injEq, Prod.mk.injEq] at heq
    obtain ⟨hrep, hrest⟩ := heq
    subst hrep
    subst hrest
    refine ⟨rfl, ?_, rfl, rfl, rfl, rfl⟩
    unfold new_report
    rw [hs, hc]
    rfl

/-- Witness for C8: the success clause evaluated on the sample completed
task. -/
theorem C8_create_report_contract_witness :
    ([report0] : List TaskReport) = [] ++ [report0] ∧
    report0.efficiency_score =
      calculate_performer_efficiency task0.task_duration 100 6100
        task0.difficulty ∧
    report0.is_awarded = false ∧ report0.text = "done" ∧
    report0.task = some task0.id ∧ report0.time_create = 150 :=
  (C8_create_report_contract performer0 task0 "done" [] 150 7).2.2.2.2
    100 6100 report0 [report0] rfl rfl create_report_task0_eval

/-- C9: in `RewardCreateSerializer.create` the two-decimal rounding
(`quantize`) binds to `Decimal(str(report.efficiency_score))`, so the
efficiency score itself is rounded — half to even — before the
multiplication by the base rate: a score of `1.536` is rounded to `1.54`
and yields `770.00` (rounding the product would have given `768.00`), and
a score of `1.005` is rounded to `1.00` (half-up would give `1.01`). -/
theorem C9_score_rounded_before_base_rate :
    (∀ e : ℚ, reward_sum_of e = min (500 * quantize2 e) 10000) ∧
    quantize2 (1536 / 1000) = 154 / 100 ∧
    reward_sum_of (1536 / 1000) = 770 ∧
    quantize2 (500 * (1536 / 1000)) = 768 ∧
    reward_sum_of (1536 / 1000) ≠ quantize2 (500 * (1536 / 1000)) ∧
    quantize2 (1005 / 1000) = 1 ∧
    reward_sum_of (1005 / 1000) = 500 := by
  refine ⟨reward_sum_of_eq_min, ?_, ?_, ?_, ?_, ?_, ?_⟩ <;>
    norm_num [reward_sum_of, quantize2, roundHalfEven]

/-- C10: the lifecycle updates modify only their designated fields.
`take`/`assign` set only `task_performer` and `time_start`; `complete`
sets only `time_completion`; every other field of the task — and for
`complete` also `task_performer` and `time_start` — is unchanged. -/
theorem C10_updates_frame (user target : User) (now : ℚ) (task : Task) :
    ((take_update user now task).task_performer = some user.id ∧
     (take_update user now task).time_start = some now ∧
     (take_update user now task).id = task.id ∧
     (take_update user now task).title = task.title ∧
     (take_update user now task).description = task.description ∧
     (take_update user now task).difficulty = task.difficulty ∧
     (take_update user now task).task_duration = task.task_duration ∧
     (take_update user now task).time_create = task.time_create ∧
     (take_update user now task).time_completion = task.time_completion ∧
     (take_update user now task).task_creator = task.task_creator) ∧
    ((assign_update target now task).task_performer = some target.id ∧
     (assign_update target now task).time_start = some now ∧
     (assign_update target now task).id = task.id ∧
     (assign_update target now task).title = task.title ∧
     (assign_update target now task).description = task.description ∧
     (assign_update target now task).difficulty = task.difficulty ∧
     (assign_update target now task).task_duration = task.task_duration ∧
     (assign_update target now task).time_create = task.time_create ∧
     (assign_update target now task).time_completion =
       task.time_completion ∧
     (assign_update target now task).task_creator = task.task_creator) ∧
    ((complete_update now task).time_completion = some now ∧
     (complete_update now task).id = task.id ∧
     (complete_update now task).title = task.title ∧
     (complete_update now task).description = task.description ∧
     (complete_update now task).difficulty = task.difficulty ∧
     (complete_update now task).task_duration = task.task_duration ∧
     (complete_update now task).time_create = task.time_create ∧
     (complete_update now task).task_creator = task.task_creator ∧
     (complete_update now task).task_performer = task.task_performer ∧
     (complete_update now task).time_start = task.time_start) :=
  ⟨⟨rfl, rfl, rfl, rfl, rfl, rfl, rfl, rfl, rfl, rfl⟩,
   ⟨rfl, rfl, rfl, rfl, rfl, rfl, rfl, rfl, rfl, rfl⟩,
   ⟨rfl, rfl, rfl, rfl, rfl, rfl, rfl, rfl, rfl, rfl⟩⟩

end Workreward
